import Mathlib

/-!
Verification of the device-authorization-grant subsystem (RFC 8628 device
flow) and its rate limiter, as implemented in `server/deviceHandlers.go`,
the `limiter` package, and the rate-limiting middleware.

Shallow embedding conventions:
* instants are `Int` seconds (`time.Time.After`/`Before` become `>`/`<`,
  `Add` becomes `+`); durations are `Int` seconds;
* the persistent store is an association list keyed by `String`; the
  storage contract (per-key `Get`/`Create`/`Update` with a distinguished
  NotFound error, updaters run linearizably per key) is modelled from the
  spec, since the `storage` package is outside this repository;
* an HTTP response is the list of writes the handler performs, in order;
  the effective status code of a response is the status of its first
  write, matching `net/http` semantics where only the first `WriteHeader`
  takes effect and later writes append to the body.
-/

/-- Status of a `DeviceToken`: `pending` until D4 attaches a token,
`complete` afterwards. -/
inductive DeviceTokenStatus where
  | pending
  | complete
deriving DecidableEq, Repr

/-- `storage.DeviceToken`: token-issuance state for a device_code. -/
structure DeviceToken where
  deviceCode : String
  status : DeviceTokenStatus
  token : String
  expiry : Int
  lastRequestTime : Int
  pollIntervalSeconds : Int
deriving DecidableEq, Repr

/-- `storage.DeviceRequest`: a pending device-initiated authorization,
keyed by user_code. -/
structure DeviceRequest where
  userCode : String
  deviceCode : String
  clientID : String
  scopes : List String
  expiry : Int
deriving DecidableEq, Repr

/-- `storage.RequestLimit`: rate-limiter state for one key. -/
structure RequestLimit where
  key : String
  interval : Int
  lastSeen : Int
  expiry : Int
deriving DecidableEq, Repr

/-- The upstream `/auth` redirect URL built by `verifyUserCode`:
a path plus the query parameters the handler sets. -/
structure AuthRedirect where
  path : String
  clientID : String
  state : String
  responseType : String
  redirectURI : String
  scope : String
deriving DecidableEq, Repr

/-- One write performed on the `http.ResponseWriter`:
`tokenErr` is `tokenErrHelper` (OAuth error JSON with a status code),
`body` is a raw `w.Write`, `render` is `renderError`, `template` is the
D2 user-code entry page (`templates.device`) with its `invalid` flag,
`success` is the D4 success page, `redirect` is `http.Redirect`. -/
inductive HttpWrite where
  | tokenErr (code : String) (desc : String) (status : Nat)
  | body (bytes : String)
  | render (status : Nat) (msg : String)
  | template (userCode : String) (invalid : Bool)
  | success (clientName : String)
  | redirect (status : Nat) (target : AuthRedirect)
deriving DecidableEq, Repr

/-- The status code a write would establish if it is the first write of
the response (`w.Write` and template rendering imply 200). -/
def writeStatus : HttpWrite → Nat
  | .tokenErr _ _ s => s
  | .body _ => 200
  | .render s _ => s
  | .template _ _ => 200
  | .success _ => 200
  | .redirect s _ => s

/-- The effective HTTP status of a response: the status of its first
write (later `WriteHeader` calls are ignored by `net/http`). -/
def responseStatus (ws : List HttpWrite) : Option Nat :=
  ws.head?.map writeStatus

/-- Result of `storage.Get*`: the distinguished NotFound error, or some
other storage fault. Modelled from the spec: the storage contract's
`Get` fails with a distinguished NotFound error callers discriminate. -/
inductive StorageErr where
  | notFound
  | internal (msg : String)
deriving DecidableEq, Repr

/-- Association-list lookup, the embedding of `storage.Get*` by key. -/
def lookupS {α : Type} (key : String) : List (String × α) → Option α
  | [] => none
  | (k, v) :: rest => if key = k then some v else lookupS key rest

/-- Association-list in-place replacement at a key, the write performed
by a successful `storage.Update*`. -/
def setS {α : Type} (key : String) (v : α) : List (String × α) → List (String × α)
  | [] => []
  | (k, w) :: rest => if key = k then (k, v) :: rest else (k, w) :: setS key v rest

/-- A store of device tokens, keyed by device_code. -/
def DTStore := List (String × DeviceToken)

/-- A store of request limits, keyed by `method-ip-path`. -/
def RLStore := List (String × RequestLimit)

/-- Modelled from the spec: `storage.UpdateDeviceToken` applies the
updater to the current value inside a per-key critical section; the
updater may reject, in which case nothing is written. The `storage`
package is outside this repository. -/
def updateDeviceToken (store : DTStore) (key : String)
    (updater : DeviceToken → Except String DeviceToken) : Except String DTStore :=
  match lookupS key store with
  | none => .error "not found"
  | some dt =>
    match updater dt with
    | .error e => .error e
    | .ok dt2 => .ok (setS key dt2 store)

/-- The conditional updater D4 (`handleDeviceCallback`) passes to
`UpdateDeviceToken`: reject if the token is already complete, otherwise
attach the serialized token response and mark complete. `respStr` is the
marshalled token response (`json.MarshalIndent` of the exchange result,
which cannot fail on this struct). -/
def deviceCallbackUpdater (respStr : String) (old : DeviceToken) :
    Except String DeviceToken :=
  if old.status = .complete then .error "device token already complete"
  else .ok { old with token := respStr, status := .complete }

/-- The updater D5 (`handleDeviceToken`) passes to `UpdateDeviceToken`
on the pending branch: store the new poll interval and last request
time; never rejects. -/
def devicePendingUpdater (pollInterval : Int) (now : Int) (old : DeviceToken) :
    Except String DeviceToken :=
  .ok { old with pollIntervalSeconds := pollInterval, lastRequestTime := now }

/-- The tail of `handleDeviceCallback` (lines 278-303): run the
completion updater through the store; on updater or storage failure
render a 500 error page and leave the store as it was, on success render
the device-success page with the client's display name. -/
def deviceCallbackFinish (store : DTStore) (deviceCode : String)
    (respStr : String) (clientName : String) : List HttpWrite × DTStore :=
  match updateDeviceToken store deviceCode (deviceCallbackUpdater respStr) with
  | .error _ => ([.render 500 ""], store)
  | .ok store2 => ([.success clientName], store2)

/-- The device-code grant type `handleDeviceToken` requires. -/
def grantTypeDeviceCode : String := "urn:ietf:params:oauth:grant-type:device_code"

/-- The core of `handleDeviceToken` (lines 171-212), after form parsing,
given the result of `GetDeviceToken`. Mirrors the Go control flow
exactly: the combined `err != nil || now.After(expiry)` guard whose
inner branch tests `err != ErrNotFound` (so a *found but expired* token
falls into the server_error branch, since its nil error differs from
ErrNotFound); the rate check that writes `slow_down` **without
returning**; then the status switch, whose pending case persists the
prospective poll interval and `now` and appends the
authorization_pending error, and whose complete case appends the stored
token bytes. -/
def handleDeviceTokenCore (now : Int) (getResult : Except StorageErr DeviceToken)
    (store : DTStore) (deviceCode : String) : List HttpWrite × DTStore :=
  match getResult with
  | .error e =>
    if e = .notFound then
      ([.tokenErr "expired_token" "Invalid or expired device code parameter." 400], store)
    else
      ([.tokenErr "server_error" "Device code not found" 500], store)
  | .ok deviceToken =>
    if now > deviceToken.expiry then
      ([.tokenErr "server_error" "Device code not found" 500], store)
    else
      let tooFast := now < deviceToken.lastRequestTime + deviceToken.pollIntervalSeconds
      let head : List HttpWrite := if tooFast then [.tokenErr "slow_down" "" 400] else []
      let pollInterval : Int := if tooFast then deviceToken.pollIntervalSeconds + 5 else 5
      match deviceToken.status with
      | .pending =>
        match updateDeviceToken store deviceCode (devicePendingUpdater pollInterval now) with
        | .error _ => (head ++ [.render 500 ""], store)
        | .ok store2 => (head ++ [.tokenErr "authorization_pending" "" 401], store2)
      | .complete => (head ++ [.body deviceToken.token], store)

/-- `handleDeviceToken`, POST branch (lines 149-212): reject a missing
device_code or wrong grant_type, then look the token up in the store
(absence is the storage NotFound error) and run the core. -/
def handleDeviceToken (store : DTStore) (deviceCode grantType : String)
    (now : Int) : List HttpWrite × DTStore :=
  if deviceCode = "" then
    ([.tokenErr "invalid_request" "No device code received" 400], store)
  else if grantType ≠ grantTypeDeviceCode then
    ([.tokenErr "invalid_grant" "Unsupported grant type.  Must be device_code" 400], store)
  else
    handleDeviceTokenCore now
      (match lookupS deviceCode store with
       | some t => .ok t
       | none => .error .notFound)
      store deviceCode

/-- Go's `path.Join` restricted to the shapes used by the handlers
(a clean base path and a component starting with "/"): concatenation. -/
def pathJoin (a b : String) : String := a ++ b

/-- Go's `strings.ToUpper` on the ASCII user codes: uppercase every
character. -/
def toUpperStr (s : String) : String := String.mk (s.data.map Char.toUpper)

/-- `verifyUserCode` (D3, lines 311-363), POST branch after form
parsing, over a store of device requests keyed by user_code: reject an
empty user_code; uppercase-normalize; on NotFound re-render the D2 page
with invalid=true; on a found-but-expired request the nil error differs
from ErrNotFound, so a server_error 500 is written first and the D2
page is appended; otherwise redirect (302) to the upstream /auth URL
with the query parameters the handler sets. -/
def verifyUserCode (issuerPath : String) (store : List (String × DeviceRequest))
    (userCodeRaw : String) (now : Int) : List HttpWrite :=
  if userCodeRaw = "" then [.render 400 "No user code received"]
  else
    let userCode := toUpperStr userCodeRaw
    match lookupS userCode store with
    | none => [.template userCode true]
    | some deviceRequest =>
      if now > deviceRequest.expiry then
        [.tokenErr "server_error" "" 500, .template userCode true]
      else
        [.redirect 302
          { path := pathJoin issuerPath "/auth"
            clientID := deviceRequest.clientID
            state := deviceRequest.userCode
            responseType := "code"
            redirectURI := pathJoin issuerPath "/device/callback"
            scope := String.intercalate " " deviceRequest.scopes }]

/-- `limiter.RequestLimiter` configuration: the base request interval
and default expiry in whole seconds (Go stores durations and converts
with `int(d.Seconds())`), the backoff flag, and the mutable on-limit
hook. The hook is modelled as the writes it performs given the delay;
`none` is Go's nil function pointer. The store and clock are passed
explicitly to each operation. -/
structure RequestLimiter where
  baseRequestInterval : Int
  defaultExpireTime : Int
  backoff : Bool
  onLimitReached : Option (Int → List HttpWrite)

/-- `RequestLimiter.IsLimited`: true if `now` is before `LastSeen` plus
the record's interval. -/
def isLimited (_l : RequestLimiter) (now : Int) (r : RequestLimit) : Bool :=
  now < r.lastSeen + r.interval

/-- The updater `RequestLimiter.UpdateRequest` passes to
`UpdateRequestLimit`: if the stored record is limited and backoff is
enabled, grow the interval by the base interval, otherwise reset it to
the base interval; stamp `lastSeen := now` and
`expiry := now + defaultExpireTime`. -/
def updateRequestUpdater (l : RequestLimiter) (now : Int) (limit : RequestLimit) :
    RequestLimit :=
  let interval : Int :=
    if isLimited l now limit && l.backoff then limit.interval + l.baseRequestInterval
    else l.baseRequestInterval
  { limit with interval := interval, lastSeen := now, expiry := now + l.defaultExpireTime }

/-- `RequestLimiter.UpdateRequest req`: run `updateRequestUpdater` on
the stored record at `req.Key` through the store's per-key update
(Modelled from the spec: `UpdateRequestLimit` is the storage contract's
per-key conditional update; the `storage` package is outside this
repository). -/
def updateRequestStore (l : RequestLimiter) (store : RLStore) (key : String)
    (now : Int) : Except String RLStore :=
  match lookupS key store with
  | none => .error "not found"
  | some r => .ok (setS key (updateRequestUpdater l now r) store)

/-- `RequestLimiter.GetLastRequest`: return the stored record for the
key, or create and persist a fresh one
`{interval := 0, lastSeen := now, expiry := now + defaultExpireTime}`
when the store reports NotFound. -/
def getLastRequest (l : RequestLimiter) (store : RLStore) (key : String)
    (now : Int) : RequestLimit × RLStore :=
  match lookupS key store with
  | some r => (r, store)
  | none =>
    let r : RequestLimit :=
      { key := key, interval := 0, lastSeen := now, expiry := now + l.defaultExpireTime }
    (r, (key, r) :: store)

/-- `RequestLimiter.ExecOnLimitReached`: invoke the on-limit hook with
the delay unless the hook pointer is nil, in which case nothing is
written and the call returns normally. -/
def execOnLimitReached (hook : Option (Int → List HttpWrite)) (delaySeconds : Int) :
    List HttpWrite :=
  match hook with
  | none => []
  | some fn => fn delaySeconds

/-- Outcome of the rate-limiting middleware for one request: the chain
was forwarded to the wrapped handler, aborted as limited (recording the
delay passed to the on-limit hook), or aborted on a storage error. -/
inductive LimitDecision where
  | forwarded
  | limited (delay : Int)
  | errored
deriving DecidableEq, Repr

/-- What one pass of the middleware produced: the decision, the writes
it performed itself (the wrapped handler's writes are out of scope),
and the resulting store. -/
structure MiddlewareResult where
  decision : LimitDecision
  writes : List HttpWrite
  store : RLStore

/-- `Server.RequestLimitHandler` (middleware, lines 37-60 of the
middleware file): fetch-or-create the record for the key
(`LimitByRequest`/`GetLastRequest`), unconditionally advance it via
`UpdateRequest`, then decide on the **pre-update snapshot**: if
`IsLimited(req)` holds of the snapshot, run the on-limit hook with
`delay := req.Interval` and abort; otherwise forward to the wrapped
handler. A storage failure renders a 500 error and aborts. -/
def requestLimitHandler (l : RequestLimiter) (store : RLStore) (key : String)
    (now : Int) : MiddlewareResult :=
  let fetched := getLastRequest l store key now
  let req := fetched.1
  match updateRequestStore l fetched.2 req.key now with
  | .error _ => { decision := .errored, writes := [.render 500 ""], store := fetched.2 }
  | .ok store2 =>
    if isLimited l now req then
      { decision := .limited req.interval
        writes := execOnLimitReached l.onLimitReached req.interval
        store := store2 }
    else
      { decision := .forwarded, writes := [], store := store2 }

/-- Iterate `updateRequestUpdater` over a sequence of request times. -/
def applyRequestUpdates (l : RequestLimiter) (r : RequestLimit) :
    List Int → RequestLimit
  | [] => r
  | t :: ts => applyRequestUpdates l (updateRequestUpdater l t r) ts

/-- Every update in the sequence observes a limited record: at each
step the record current at that step is limited at that step's time. -/
def allLimited (l : RequestLimiter) (r : RequestLimit) : List Int → Prop
  | [] => True
  | t :: ts => isLimited l t r = true ∧ allLimited l (updateRequestUpdater l t r) ts

theorem lookupS_setS_self {α : Type} (key : String) (v : α) :
    ∀ (s : List (String × α)) (w : α), lookupS key s = some w →
      lookupS key (setS key v s) = some v := by
  intro s
  induction s with
  | nil => intro w h; simp [lookupS] at h
  | cons head tail ih =>
    intro w h
    obtain ⟨k, x⟩ := head
    by_cases hk : key = k
    · simp [lookupS, setS, hk]
    · simp [lookupS, setS, hk] at h ⊢
      exact ih w h

theorem handleDeviceToken_live_pending (store : DTStore) (dc : String)
    (now : Int) (dt : DeviceToken) (hdc : dc ≠ "")
    (hlook : lookupS dc store = some dt) (hexp : ¬ now > dt.expiry)
    (hst : dt.status = .pending) :
    handleDeviceToken store dc grantTypeDeviceCode now =
      ((if now < dt.lastRequestTime + dt.pollIntervalSeconds
          then [HttpWrite.tokenErr "slow_down" "" 400] else []) ++
        [HttpWrite.tokenErr "authorization_pending" "" 401],
       setS dc
         { dt with
           pollIntervalSeconds :=
             if now < dt.lastRequestTime + dt.pollIntervalSeconds
               then dt.pollIntervalSeconds + 5 else 5,
           lastRequestTime := now } store) := by
  simp only [handleDeviceToken, if_neg hdc, ne_eq, not_true_eq_false, if_false, hlook]
  simp only [handleDeviceTokenCore, if_neg hexp, hst, updateDeviceToken, hlook,
    devicePendingUpdater]

theorem handleDeviceToken_live_complete (store : DTStore) (dc : String)
    (now : Int) (dt : DeviceToken) (hdc : dc ≠ "")
    (hlook : lookupS dc store = some dt) (hexp : ¬ now > dt.expiry)
    (hst : dt.status = .complete) :
    handleDeviceToken store dc grantTypeDeviceCode now =
      ((if now < dt.lastRequestTime + dt.pollIntervalSeconds
          then [HttpWrite.tokenErr "slow_down" "" 400] else []) ++
        [HttpWrite.body dt.token], store) := by
  simp only [handleDeviceToken, if_neg hdc, ne_eq, not_true_eq_false, if_false, hlook]
  simp only [handleDeviceTokenCore, if_neg hexp, hst]

theorem applyRequestUpdates_limited (l : RequestLimiter) (hb : l.backoff = true) :
    ∀ (ts : List Int) (r : RequestLimit), allLimited l r ts →
      (applyRequestUpdates l r ts).interval =
        r.interval + (ts.length : Int) * l.baseRequestInterval := by
  intro ts
  induction ts with
  | nil => intro r _; simp [applyRequestUpdates]
  | cons t ts ih =>
    intro r hall
    obtain ⟨hlim, hrest⟩ := hall
    have hstep : (updateRequestUpdater l t r).interval =
        r.interval + l.baseRequestInterval := by
      simp [updateRequestUpdater, hlim, hb]
    have := ih (updateRequestUpdater l t r) hrest
    simp only [applyRequestUpdates, this, hstep, List.length_cons]
    push_cast
    ring

/-- Claim C1: once a DeviceToken's status is complete it never
transitions back to pending and its token bytes never change: the D5
pending-branch updater modifies only poll_interval_seconds and
last_request_time; the D4 completion updater rejects with the terminal
"device token already complete" error (surfaced as a 500 error render)
whenever the current status is already complete; so of two D4
completions for the same device_code, serialized per key by the store,
exactly one attaches its token and succeeds while the other aborts
leaving the stored record unchanged. -/
theorem deviceToken_complete_terminal
    (store : DTStore) (dc : String) (dt : DeviceToken)
    (t1 t2 cn1 cn2 : String) (pi now : Int)
    (hlook : lookupS dc store = some dt) (hpend : dt.status = .pending) :
    (∀ (old upd : DeviceToken), devicePendingUpdater pi now old = .ok upd →
       upd.status = old.status ∧ upd.token = old.token ∧
       upd.deviceCode = old.deviceCode ∧ upd.expiry = old.expiry) ∧
    (∀ old : DeviceToken, old.status = .complete →
       deviceCallbackUpdater t1 old = .error "device token already complete") ∧
    ((deviceCallbackFinish store dc t1 cn1).1 = [.success cn1] ∧
     lookupS dc (deviceCallbackFinish store dc t1 cn1).2 =
       some { dt with token := t1, status := .complete } ∧
     deviceCallbackFinish (deviceCallbackFinish store dc t1 cn1).2 dc t2 cn2 =
       ([.render 500 ""], (deviceCallbackFinish store dc t1 cn1).2)) := by
  have h1 : deviceCallbackFinish store dc t1 cn1 =
      ([.success cn1], setS dc { dt with token := t1, status := .complete } store) := by
    simp [deviceCallbackFinish, updateDeviceToken, hlook, deviceCallbackUpdater, hpend]
  have h2 : lookupS dc (setS dc { dt with token := t1, status := .complete } store) =
      some { dt with token := t1, status := .complete } :=
    lookupS_setS_self dc _ store dt hlook
  refine ⟨?_, ?_, ?_, ?_, ?_⟩
  · intro old upd h
    simp only [devicePendingUpdater, Except.ok.injEq] at h
    subst h
    simp
  · intro old h
    simp [deviceCallbackUpdater, h]
  · rw [h1]
  · rw [h1]
    exact h2
  · rw [h1]
    simp [deviceCallbackFinish, updateDeviceToken, h2, deviceCallbackUpdater]

/-- Witness for `deviceToken_complete_terminal`: a concrete pending
token; the first completion stores "T1" and succeeds, the second aborts
with the 500 render leaving the record holding "T1". -/
theorem deviceToken_complete_terminal_witness :
    lookupS "d1" [("d1", (⟨"d1", .pending, "", 600, 0, 5⟩ : DeviceToken))] =
      some ⟨"d1", .pending, "", 600, 0, 5⟩ ∧
    (⟨"d1", .pending, "", 600, 0, 5⟩ : DeviceToken).status = .pending ∧
    ((deviceCallbackFinish [("d1", ⟨"d1", .pending, "", 600, 0, 5⟩)] "d1" "T1" "app").1 =
       [.success "app"] ∧
     lookupS "d1"
         (deviceCallbackFinish [("d1", ⟨"d1", .pending, "", 600, 0, 5⟩)] "d1" "T1" "app").2 =
       some ⟨"d1", .complete, "T1", 600, 0, 5⟩ ∧
     deviceCallbackFinish
         (deviceCallbackFinish [("d1", ⟨"d1", .pending, "", 600, 0, 5⟩)] "d1" "T1" "app").2
         "d1" "T2" "app" =
       ([.render 500 ""],
        (deviceCallbackFinish [("d1", ⟨"d1", .pending, "", 600, 0, 5⟩)] "d1" "T1" "app").2)) :=
  ⟨rfl, rfl,
   (deviceToken_complete_terminal [("d1", ⟨"d1", .pending, "", 600, 0, 5⟩)] "d1"
     ⟨"d1", .pending, "", 600, 0, 5⟩ "T1" "T2" "app" "app" 0 0 rfl rfl).2.2⟩

/-- Claim C2 (code-bug evaluation): at a *found but expired* device
token the D5 handler responds server_error 500 (the nil lookup error
differs from ErrNotFound, so the expired record falls into the
server-error branch), not expired_token 400 as the spec states; only
the NotFound case yields expired_token 400. -/
theorem deviceToken_expired_eval :
    handleDeviceToken
        [("dc1", ⟨"dc1", .pending, "", 100, 0, 5⟩)] "dc1" grantTypeDeviceCode 101 =
      ([.tokenErr "server_error" "Device code not found" 500],
       [("dc1", ⟨"dc1", .pending, "", 100, 0, 5⟩)]) ∧
    handleDeviceToken [] "dc1" grantTypeDeviceCode 101 =
      ([.tokenErr "expired_token" "Invalid or expired device code parameter." 400], []) ∧
    responseStatus [HttpWrite.tokenErr "server_error" "Device code not found" 500] =
      some 500 :=
  ⟨rfl, rfl, rfl⟩

/-- Counterexample to claim C3 as stated: on a *complete* token polled
again too fast (last poll at 100, interval 5, now 102) the handler
first writes the slow_down error — which fixes the response status at
400 — and then appends the stored token bytes, so the response is not
the token with status 200. -/
theorem deviceToken_poll_complete_slowdown_cex :
    (handleDeviceToken
        [("dc1", ⟨"dc1", .complete, "TOK", 1000, 100, 5⟩)]
        "dc1" grantTypeDeviceCode 102).1 =
      [.tokenErr "slow_down" "" 400, .body "TOK"] ∧
    responseStatus
        (handleDeviceToken
          [("dc1", ⟨"dc1", .complete, "TOK", 1000, 100, 5⟩)]
          "dc1" grantTypeDeviceCode 102).1 = some 400 ∧
    some 400 ≠ some 200 :=
  ⟨rfl, rfl, by decide⟩

/-- Claim C3 as amended: for a D5 call on a live DeviceToken, if now is
before last_request_time + poll_interval_seconds the response starts
with slow_down 400 and the prospective poll interval is the old value
plus 5, otherwise it resets to 5; on the pending branch the prospective
interval and last_request_time := now are persisted, and the response
is authorization_pending 401 exactly when the rate check passed (after
a slow_down rejection the pending error JSON is still appended behind
it); once the record is complete, the stored token bytes are written
verbatim on every call, with status 200 exactly when the rate check
passed (a too-fast call gets them appended behind the slow_down 400). -/
theorem deviceToken_poll_responses (store : DTStore) (dc : String)
    (now : Int) (dt : DeviceToken) (hdc : dc ≠ "")
    (hlook : lookupS dc store = some dt) (hexp : ¬ now > dt.expiry) :
    (now < dt.lastRequestTime + dt.pollIntervalSeconds →
       (handleDeviceToken store dc grantTypeDeviceCode now).1.head? =
         some (.tokenErr "slow_down" "" 400)) ∧
    (dt.status = .pending →
       lookupS dc (handleDeviceToken store dc grantTypeDeviceCode now).2 =
         some { dt with
           pollIntervalSeconds :=
             if now < dt.lastRequestTime + dt.pollIntervalSeconds
               then dt.pollIntervalSeconds + 5 else 5,
           lastRequestTime := now } ∧
       (¬ now < dt.lastRequestTime + dt.pollIntervalSeconds →
          (handleDeviceToken store dc grantTypeDeviceCode now).1 =
            [.tokenErr "authorization_pending" "" 401]) ∧
       (now < dt.lastRequestTime + dt.pollIntervalSeconds →
          (handleDeviceToken store dc grantTypeDeviceCode now).1 =
            [.tokenErr "slow_down" "" 400, .tokenErr "authorization_pending" "" 401])) ∧
    (dt.status = .complete →
       (¬ now < dt.lastRequestTime + dt.pollIntervalSeconds →
          (handleDeviceToken store dc grantTypeDeviceCode now).1 = [.body dt.token] ∧
          responseStatus (handleDeviceToken store dc grantTypeDeviceCode now).1 =
            some 200) ∧
       (now < dt.lastRequestTime + dt.pollIntervalSeconds →
          (handleDeviceToken store dc grantTypeDeviceCode now).1 =
            [.tokenErr "slow_down" "" 400, .body dt.token])) := by
  refine ⟨?_, ?_, ?_⟩
  · intro hfast
    rcases hst : dt.status with h | h
    · rw [handleDeviceToken_live_pending store dc now dt hdc hlook hexp hst]
      simp [hfast]
    · rw [handleDeviceToken_live_complete store dc now dt hdc hlook hexp hst]
      simp [hfast]
  · intro hst
    rw [handleDeviceToken_live_pending store dc now dt hdc hlook hexp hst]
    refine ⟨lookupS_setS_self dc _ store dt hlook, ?_, ?_⟩
    · intro hslow
      simp [hslow]
    · intro hfast
      simp [hfast]
  · intro hst
    rw [handleDeviceToken_live_complete store dc now dt hdc hlook hexp hst]
    constructor
    · intro hslow
      simp [hslow, responseStatus, writeStatus]
    · intro hfast
      simp [hfast]

/-- Witness for `deviceToken_poll_responses`: a concrete pending token
(last poll at 0, interval 5) polled at now = 7, where the rate check
passes: the persisted record has interval 5 and last_request_time 7 and
the response is authorization_pending 401. -/
theorem deviceToken_poll_responses_witness :
    "dc1" ≠ "" ∧
    lookupS "dc1" [("dc1", (⟨"dc1", .pending, "", 600, 0, 5⟩ : DeviceToken))] =
      some ⟨"dc1", .pending, "", 600, 0, 5⟩ ∧
    ¬ (7 : Int) > 600 ∧
    (lookupS "dc1"
        (handleDeviceToken [("dc1", ⟨"dc1", .pending, "", 600, 0, 5⟩)]
          "dc1" grantTypeDeviceCode 7).2 =
      some ⟨"dc1", .pending, "", 600, 7, 5⟩ ∧
    (¬ (7 : Int) < 0 + 5 →
       (handleDeviceToken [("dc1", ⟨"dc1", .pending, "", 600, 0, 5⟩)]
           "dc1" grantTypeDeviceCode 7).1 =
         [.tokenErr "authorization_pending" "" 401]) ∧
    ((7 : Int) < 0 + 5 →
       (handleDeviceToken [("dc1", ⟨"dc1", .pending, "", 600, 0, 5⟩)]
           "dc1" grantTypeDeviceCode 7).1 =
         [.tokenErr "slow_down" "" 400, .tokenErr "authorization_pending" "" 401])) := by
  refine ⟨by decide, rfl, by decide, ?_⟩
  have h := (deviceToken_poll_responses
    [("dc1", ⟨"dc1", .pending, "", 600, 0, 5⟩)] "dc1" 7
    ⟨"dc1", .pending, "", 600, 0, 5⟩ (by decide) rfl (by decide)).2.1 rfl
  simpa using h

/-- Counterexample to claim C4 as stated: a pending token (interval 5,
last poll at 100) polled too fast at now = 102 is rejected with
slow_down, yet the handler does not return after the rejection, so the
pending branch persists the increased interval: the stored record ends
with poll_interval_seconds = 10 (and last_request_time = 102), not the
unchanged 5. -/
theorem slowdown_increase_persisted_cex :
    lookupS "dc1"
        (handleDeviceToken [("dc1", ⟨"dc1", .pending, "", 1000, 100, 5⟩)]
          "dc1" grantTypeDeviceCode 102).2 =
      some ⟨"dc1", .pending, "", 1000, 102, 10⟩ ∧
    (handleDeviceToken [("dc1", ⟨"dc1", .pending, "", 1000, 100, 5⟩)]
        "dc1" grantTypeDeviceCode 102).1.head? =
      some (.tokenErr "slow_down" "" 400) ∧
    (10 : Int) ≠ 5 :=
  ⟨rfl, rfl, by decide⟩

/-- Claim C4 as amended: after a D5 call rejected with slow_down, the
computed +5 increase of poll_interval_seconds *is* persisted whenever
the token is pending (the handler falls through to the pending branch,
which also stamps last_request_time := now); only on the complete
branch is nothing persisted. An updated poll_interval_seconds is
persisted exactly on the pending branch, regardless of the outcome of
the rate check. -/
theorem slowdown_persistence (store : DTStore) (dc : String)
    (now : Int) (dt : DeviceToken) (hdc : dc ≠ "")
    (hlook : lookupS dc store = some dt) (hexp : ¬ now > dt.expiry)
    (hfast : now < dt.lastRequestTime + dt.pollIntervalSeconds) :
    (dt.status = .pending →
       lookupS dc (handleDeviceToken store dc grantTypeDeviceCode now).2 =
         some { dt with
           pollIntervalSeconds := dt.pollIntervalSeconds + 5,
           lastRequestTime := now }) ∧
    (dt.status = .complete →
       (handleDeviceToken store dc grantTypeDeviceCode now).2 = store) := by
  constructor
  · intro hst
    rw [handleDeviceToken_live_pending store dc now dt hdc hlook hexp hst]
    have := lookupS_setS_self dc
      ({ dt with
          pollIntervalSeconds :=
            if now < dt.lastRequestTime + dt.pollIntervalSeconds
              then dt.pollIntervalSeconds + 5 else 5,
          lastRequestTime := now }) store dt hlook
    simpa [hfast] using this
  · intro hst
    rw [handleDeviceToken_live_complete store dc now dt hdc hlook hexp hst]

/-- Witness for `slowdown_persistence`: the pending token of the
counterexample scenario; the rate check fails at now = 102 and the
persisted record carries interval 10 and last_request_time 102. -/
theorem slowdown_persistence_witness :
    "dc1" ≠ "" ∧
    lookupS "dc1" [("dc1", (⟨"dc1", .pending, "", 1000, 100, 5⟩ : DeviceToken))] =
      some ⟨"dc1", .pending, "", 1000, 100, 5⟩ ∧
    ¬ (102 : Int) > 1000 ∧
    (102 : Int) < 100 + 5 ∧
    (DeviceTokenStatus.pending = .pending →
       lookupS "dc1"
           (handleDeviceToken [("dc1", ⟨"dc1", .pending, "", 1000, 100, 5⟩)]
             "dc1" grantTypeDeviceCode 102).2 =
         some ⟨"dc1", .pending, "", 1000, 102, 10⟩) := by
  refine ⟨by decide, rfl, by decide, by decide, ?_⟩
  intro _
  have h := (slowdown_persistence
    [("dc1", ⟨"dc1", .pending, "", 1000, 100, 5⟩)] "dc1" 102
    ⟨"dc1", .pending, "", 1000, 100, 5⟩ (by decide) rfl (by decide) (by decide)).1 rfl
  simpa using h

/-- Counterexample to claim C5 as stated: a D5 call at now = 200 on a
stored live *complete* token (last_request_time = 100) leaves the store
untouched — last_request_time stays 100, it is not advanced to 200 —
because the complete branch performs no storage update. -/
theorem lastRequestTime_complete_cex :
    (handleDeviceToken [("dc1", ⟨"dc1", .complete, "TOK", 1000, 100, 5⟩)]
        "dc1" grantTypeDeviceCode 200).2 =
      [("dc1", ⟨"dc1", .complete, "TOK", 1000, 100, 5⟩)] ∧
    (lookupS "dc1"
        (handleDeviceToken [("dc1", ⟨"dc1", .complete, "TOK", 1000, 100, 5⟩)]
          "dc1" grantTypeDeviceCode 200).2).map DeviceToken.lastRequestTime =
      some 100 ∧
    (100 : Int) ≠ 200 :=
  ⟨rfl, rfl, by decide⟩

/-- Claim C5 as amended: a D5 call that reaches a stored live *pending*
DeviceToken advances that record's last_request_time to the current
time, including calls rejected with slow_down; a call that reaches a
complete record performs no storage update at all, leaving
last_request_time (and the rest of the record) unchanged. -/
theorem lastRequestTime_advance (store : DTStore) (dc : String)
    (now : Int) (dt : DeviceToken) (hdc : dc ≠ "")
    (hlook : lookupS dc store = some dt) (hexp : ¬ now > dt.expiry) :
    (dt.status = .pending →
       (lookupS dc (handleDeviceToken store dc grantTypeDeviceCode now).2).map
           DeviceToken.lastRequestTime = some now) ∧
    (dt.status = .complete →
       (handleDeviceToken store dc grantTypeDeviceCode now).2 = store) := by
  constructor
  · intro hst
    rw [handleDeviceToken_live_pending store dc now dt hdc hlook hexp hst]
    have := lookupS_setS_self dc
      ({ dt with
          pollIntervalSeconds :=
            if now < dt.lastRequestTime + dt.pollIntervalSeconds
              then dt.pollIntervalSeconds + 5 else 5,
          lastRequestTime := now }) store dt hlook
    rw [this]
    simp
  · intro hst
    rw [handleDeviceToken_live_complete store dc now dt hdc hlook hexp hst]

/-- Witness for `lastRequestTime_advance`: a pending token polled too
fast at now = 3 (so the call is rejected with slow_down) still gets its
last_request_time advanced to 3. -/
theorem lastRequestTime_advance_witness :
    "dc1" ≠ "" ∧
    lookupS "dc1" [("dc1", (⟨"dc1", .pending, "", 1000, 0, 5⟩ : DeviceToken))] =
      some ⟨"dc1", .pending, "", 1000, 0, 5⟩ ∧
    ¬ (3 : Int) > 1000 ∧
    (lookupS "dc1"
        (handleDeviceToken [("dc1", ⟨"dc1", .pending, "", 1000, 0, 5⟩)]
          "dc1" grantTypeDeviceCode 3).2).map DeviceToken.lastRequestTime =
      some 3 := by
  refine ⟨by decide, rfl, by decide, ?_⟩
  exact (lastRequestTime_advance
    [("dc1", ⟨"dc1", .pending, "", 1000, 0, 5⟩)] "dc1" 3
    ⟨"dc1", .pending, "", 1000, 0, 5⟩ (by decide) rfl (by decide)).1 rfl

/-- Claim C6: update_request applies, atomically per key, the stored
transformation: if the current record is limited and backoff is
enabled, interval grows by base_interval, otherwise it resets to
base_interval; last_seen becomes now and expiry becomes
now + default_expiry. Consequently with backoff enabled, after n
consecutive limited updates starting from a record holding
base_interval, the stored interval equals (n+1)·base_interval. -/
theorem updateRequest_backoff (l : RequestLimiter) (store : RLStore) (key : String)
    (now : Int) (r : RequestLimit) (ts : List Int)
    (hlook : lookupS key store = some r) :
    updateRequestStore l store key now =
      .ok (setS key (updateRequestUpdater l now r) store) ∧
    (updateRequestUpdater l now r).lastSeen = now ∧
    (updateRequestUpdater l now r).expiry = now + l.defaultExpireTime ∧
    (isLimited l now r = true → l.backoff = true →
       (updateRequestUpdater l now r).interval = r.interval + l.baseRequestInterval) ∧
    (isLimited l now r = false ∨ l.backoff = false →
       (updateRequestUpdater l now r).interval = l.baseRequestInterval) ∧
    (l.backoff = true → r.interval = l.baseRequestInterval → allLimited l r ts →
       (applyRequestUpdates l r ts).interval =
         ((ts.length : Int) + 1) * l.baseRequestInterval) := by
  refine ⟨?_, ?_, ?_, ?_, ?_, ?_⟩
  · simp [updateRequestStore, hlook]
  · simp [updateRequestUpdater]
  · simp [updateRequestUpdater]
  · intro h1 h2
    simp [updateRequestUpdater, h1, h2]
  · intro h
    rcases h with h | h <;> simp [updateRequestUpdater, h]
  · intro hb hbase hall
    rw [applyRequestUpdates_limited l hb ts r hall, hbase]
    ring

/-- Witness for `updateRequest_backoff`: base interval 3, backoff on, a
record already at interval 3 (one base interval), two consecutive
limited updates at times 1 and 2: the stored interval ends at
(2+1)·3 = 9. -/
theorem updateRequest_backoff_witness :
    lookupS "k" [("k", (⟨"k", 3, 0, 100⟩ : RequestLimit))] = some ⟨"k", 3, 0, 100⟩ ∧
    ({ baseRequestInterval := 3, defaultExpireTime := 100, backoff := true,
       onLimitReached := none } : RequestLimiter).backoff = true ∧
    (⟨"k", 3, 0, 100⟩ : RequestLimit).interval = 3 ∧
    allLimited
      { baseRequestInterval := 3, defaultExpireTime := 100, backoff := true,
        onLimitReached := none }
      ⟨"k", 3, 0, 100⟩ [1, 2] ∧
    (applyRequestUpdates
        { baseRequestInterval := 3, defaultExpireTime := 100, backoff := true,
          onLimitReached := none }
        ⟨"k", 3, 0, 100⟩ [1, 2]).interval = 9 := by
  have hall : allLimited
      { baseRequestInterval := 3, defaultExpireTime := 100, backoff := true,
        onLimitReached := none }
      ⟨"k", 3, 0, 100⟩ [1, 2] := ⟨by decide, by decide, trivial⟩
  have h := (updateRequest_backoff
    { baseRequestInterval := 3, defaultExpireTime := 100, backoff := true,
      onLimitReached := none }
    [("k", ⟨"k", 3, 0, 100⟩)] "k" 0 ⟨"k", 3, 0, 100⟩ [1, 2] rfl).2.2.2.2.2 rfl rfl hall
  norm_num at h
  exact ⟨rfl, rfl, rfl, hall, h⟩

theorem requestLimitHandler_present (l : RequestLimiter) (store : RLStore)
    (key : String) (now : Int) (r : RequestLimit)
    (hlook : lookupS key store = some r) (hkey : r.key = key) :
    requestLimitHandler l store key now =
      if isLimited l now r then
        { decision := .limited r.interval,
          writes := execOnLimitReached l.onLimitReached r.interval,
          store := setS key (updateRequestUpdater l now r) store }
      else
        { decision := .forwarded, writes := [],
          store := setS key (updateRequestUpdater l now r) store } := by
  have hupd : updateRequestStore l store r.key now =
      .ok (setS key (updateRequestUpdater l now r) store) := by
    rw [hkey]
    simp [updateRequestStore, hlook]
  simp [requestLimitHandler, getLastRequest, hlook, hupd]

theorem requestLimitHandler_absent (l : RequestLimiter) (store : RLStore)
    (key : String) (now : Int) (hlook : lookupS key store = none) :
    (requestLimitHandler l store key now).decision = .forwarded := by
  simp [requestLimitHandler, getLastRequest, hlook, updateRequestStore, lookupS,
    isLimited, add_zero, lt_self_iff_false]

/-- Claim C7: the middleware first advances the stored RequestLimit via
update_request and only then decides using the pre-update snapshot: if
is_limited holds of the snapshot it invokes the on-limit hook with
delay equal to the snapshot's interval and aborts, otherwise it
forwards to the wrapped handler; a first-visit record has interval 0,
is never limited, so the first request for any key is always
forwarded. -/
theorem requestLimitHandler_snapshot (l : RequestLimiter) (store : RLStore)
    (key : String) (now : Int) :
    (lookupS key store = none →
       (requestLimitHandler l store key now).decision = .forwarded) ∧
    (∀ r : RequestLimit, lookupS key store = some r → r.key = key →
       ((requestLimitHandler l store key now).decision =
          if isLimited l now r then .limited r.interval else .forwarded) ∧
       lookupS key (requestLimitHandler l store key now).store =
         some (updateRequestUpdater l now r) ∧
       (isLimited l now r = true →
          (requestLimitHandler l store key now).writes =
            execOnLimitReached l.onLimitReached r.interval)) := by
  constructor
  · intro h
    exact requestLimitHandler_absent l store key now h
  · intro r hlook hkey
    have hh := requestLimitHandler_present l store key now r hlook hkey
    have hset := lookupS_setS_self key (updateRequestUpdater l now r) store r hlook
    refine ⟨?_, ?_, ?_⟩
    · by_cases hlim : isLimited l now r <;> simp [hh, hlim]
    · by_cases hlim : isLimited l now r <;> simp [hh, hlim, hset]
    · intro hlim
      simp [hh, hlim]

/-- Witness for `requestLimitHandler_snapshot`: an empty store forwards
the first request for key "k"; a stored record ⟨"k", 4, 10, 100⟩ at
now = 12 is limited (12 < 10 + 4), so the chain is aborted with delay 4
and the store is advanced to interval 3 (backoff disabled, base 3). -/
theorem requestLimitHandler_snapshot_witness :
    lookupS "k" ([] : RLStore) = none ∧
    (requestLimitHandler
        { baseRequestInterval := 3, defaultExpireTime := 100, backoff := false,
          onLimitReached := none }
        ([] : RLStore) "k" 12).decision = .forwarded ∧
    lookupS "k" [("k", (⟨"k", 4, 10, 100⟩ : RequestLimit))] = some ⟨"k", 4, 10, 100⟩ ∧
    (⟨"k", 4, 10, 100⟩ : RequestLimit).key = "k" ∧
    ((requestLimitHandler
        { baseRequestInterval := 3, defaultExpireTime := 100, backoff := false,
          onLimitReached := none }
        [("k", ⟨"k", 4, 10, 100⟩)] "k" 12).decision =
      if isLimited
          { baseRequestInterval := 3, defaultExpireTime := 100, backoff := false,
            onLimitReached := none }
          12 ⟨"k", 4, 10, 100⟩
        then .limited (⟨"k", 4, 10, 100⟩ : RequestLimit).interval else .forwarded) ∧
    lookupS "k"
        (requestLimitHandler
          { baseRequestInterval := 3, defaultExpireTime := 100, backoff := false,
            onLimitReached := none }
          [("k", ⟨"k", 4, 10, 100⟩)] "k" 12).store =
      some (updateRequestUpdater
        { baseRequestInterval := 3, defaultExpireTime := 100, backoff := false,
          onLimitReached := none }
        12 ⟨"k", 4, 10, 100⟩) := by
  have h := requestLimitHandler_snapshot
    { baseRequestInterval := 3, defaultExpireTime := 100, backoff := false,
      onLimitReached := none }
    [("k", ⟨"k", 4, 10, 100⟩)] "k" 12
  have h2 := h.2 ⟨"k", 4, 10, 100⟩ rfl rfl
  have h0 := (requestLimitHandler_snapshot
    { baseRequestInterval := 3, defaultExpireTime := 100, backoff := false,
      onLimitReached := none }
    ([] : RLStore) "k" 12).1 rfl
  exact ⟨rfl, h0, rfl, rfl, h2.1, h2.2.1⟩

/-- Claim C8: a D3 submission whose user_code, after uppercase
normalization (so lowercase input resolves an uppercase-stored
request), matches a non-expired DeviceRequest is answered with a 302
redirect to the upstream /auth URL whose query carries
client_id = DeviceRequest.client_id, state = the (normalized)
user_code, response_type = code, redirect_uri = issuer path +
/device/callback, and scope = the space-joined DeviceRequest.scopes. -/
theorem verifyUserCode_redirect (issuerPath : String)
    (store : List (String × DeviceRequest)) (raw : String) (now : Int)
    (dr : DeviceRequest) (hne : raw ≠ "")
    (hlook : lookupS (toUpperStr raw) store = some dr)
    (hkey : dr.userCode = toUpperStr raw)
    (hexp : ¬ now > dr.expiry) :
    verifyUserCode issuerPath store raw now =
      [.redirect 302
        { path := pathJoin issuerPath "/auth"
          clientID := dr.clientID
          state := toUpperStr raw
          responseType := "code"
          redirectURI := pathJoin issuerPath "/device/callback"
          scope := String.intercalate " " dr.scopes }] := by
  simp [verifyUserCode, hne, hlook, if_neg hexp, hkey]

/-- Witness for `verifyUserCode_redirect`: the user_code is submitted
lowercase ("abcd") and resolves the DeviceRequest stored under the
uppercase key "ABCD"; the redirect carries that client's id, the
normalized user_code as state, and the space-joined scopes. -/
theorem verifyUserCode_redirect_witness :
    "abcd" ≠ "" ∧
    lookupS (toUpperStr "abcd")
        [("ABCD", (⟨"ABCD", "dev1", "c1", ["openid"], 600⟩ : DeviceRequest))] =
      some ⟨"ABCD", "dev1", "c1", ["openid"], 600⟩ ∧
    (⟨"ABCD", "dev1", "c1", ["openid"], 600⟩ : DeviceRequest).userCode =
      toUpperStr "abcd" ∧
    ¬ (10 : Int) > 600 ∧
    verifyUserCode "/dex"
        [("ABCD", ⟨"ABCD", "dev1", "c1", ["openid"], 600⟩)] "abcd" 10 =
      [.redirect 302 ⟨"/dex/auth", "c1", "ABCD", "code", "/dex/device/callback", "openid"⟩] := by
  refine ⟨by decide, by decide, by decide, by decide, ?_⟩
  have h := verifyUserCode_redirect "/dex"
    [("ABCD", ⟨"ABCD", "dev1", "c1", ["openid"], 600⟩)] "abcd" 10
    ⟨"ABCD", "dev1", "c1", ["openid"], 600⟩ (by decide) (by decide) (by decide) (by decide)
  rw [h]
  decide

/-- Counterexample to claim C9 as stated: for a user_code matching an
*expired* DeviceRequest (expiry 100, now 101) the handler does not
answer with the re-rendered D2 page alone: because the nil lookup error
differs from ErrNotFound, it first writes a server_error JSON — fixing
the response status at 500 — and only then appends the D2 page with
invalid=true. -/
theorem verifyUserCode_expired_cex :
    verifyUserCode "/dex"
        [("ABCD", (⟨"ABCD", "dev1", "c1", ["openid"], 100⟩ : DeviceRequest))]
        "abcd" 101 =
      [.tokenErr "server_error" "" 500, .template "ABCD" true] ∧
    responseStatus
        (verifyUserCode "/dex"
          [("ABCD", (⟨"ABCD", "dev1", "c1", ["openid"], 100⟩ : DeviceRequest))]
          "abcd" 101) = some 500 ∧
    verifyUserCode "/dex"
        [("ABCD", (⟨"ABCD", "dev1", "c1", ["openid"], 100⟩ : DeviceRequest))]
        "abcd" 101 ≠
      [HttpWrite.template "ABCD" true] :=
  ⟨by decide, by decide, by decide⟩

/-- Claim C9 as amended: a D3 submission whose user_code matches no
DeviceRequest is answered by re-rendering the D2 user-code entry page
with invalid=true; for a user_code matching an expired DeviceRequest a
server_error 500 JSON error is written first and the D2 page with
invalid=true is appended behind it. -/
theorem verifyUserCode_invalid (issuerPath : String)
    (store : List (String × DeviceRequest)) (raw : String) (now : Int)
    (hne : raw ≠ "") :
    (lookupS (toUpperStr raw) store = none →
       verifyUserCode issuerPath store raw now = [.template (toUpperStr raw) true]) ∧
    (∀ dr : DeviceRequest, lookupS (toUpperStr raw) store = some dr → now > dr.expiry →
       verifyUserCode issuerPath store raw now =
         [.tokenErr "server_error" "" 500, .template (toUpperStr raw) true]) := by
  constructor
  · intro h
    simp [verifyUserCode, hne, h]
  · intro dr h hexp
    simp [verifyUserCode, hne, h, hexp]

/-- Witness for `verifyUserCode_invalid`: the unknown user_code
"zzzzzzzz" (normalized to "ZZZZZZZZ") re-renders the D2 page with
invalid=true. -/
theorem verifyUserCode_invalid_witness :
    "zzzzzzzz" ≠ "" ∧
    lookupS (toUpperStr "zzzzzzzz") ([] : List (String × DeviceRequest)) = none ∧
    verifyUserCode "/dex" ([] : List (String × DeviceRequest)) "zzzzzzzz" 10 =
      [.template "ZZZZZZZZ" true] := by
  refine ⟨by decide, rfl, ?_⟩
  have h := (verifyUserCode_invalid "/dex" ([] : List (String × DeviceRequest))
    "zzzzzzzz" 10 (by decide)).1 rfl
  rw [h]
  decide

/-- Claim C10: calling ExecOnLimitReached while the on-limit hook is
nil is safe: the nil guard means no callback runs and the call returns
normally (no writes), so a rate-limited request on a limiter without a
configured hook is aborted without any rejection renderer running. -/
theorem execOnLimitReached_nil_safe (delay : Int) (l : RequestLimiter)
    (store : RLStore) (key : String) (now : Int) (r : RequestLimit)
    (hnil : l.onLimitReached = none)
    (hlook : lookupS key store = some r) (hkey : r.key = key)
    (hlim : isLimited l now r = true) :
    execOnLimitReached (none : Option (Int → List HttpWrite)) delay = [] ∧
    (requestLimitHandler l store key now).writes = [] ∧
    (requestLimitHandler l store key now).decision = .limited r.interval := by
  have hh := requestLimitHandler_present l store key now r hlook hkey
  refine ⟨rfl, ?_, ?_⟩
  · simp [hh, hlim, execOnLimitReached, hnil]
  · simp [hh, hlim]

/-- Witness for `execOnLimitReached_nil_safe`: a limiter with no hook
and a limited record ⟨"k", 4, 10, 100⟩ at now = 12: the chain is
aborted with delay 4 and no rejection write is performed. -/
theorem execOnLimitReached_nil_safe_witness :
    execOnLimitReached (none : Option (Int → List HttpWrite)) 4 = [] ∧
    (requestLimitHandler
        { baseRequestInterval := 3, defaultExpireTime := 60, backoff := true,
          onLimitReached := none }
        [("k", (⟨"k", 4, 10, 100⟩ : RequestLimit))] "k" 12).writes = [] ∧
    (requestLimitHandler
        { baseRequestInterval := 3, defaultExpireTime := 60, backoff := true,
          onLimitReached := none }
        [("k", (⟨"k", 4, 10, 100⟩ : RequestLimit))] "k" 12).decision =
      .limited 4 :=
  execOnLimitReached_nil_safe 4
    { baseRequestInterval := 3, defaultExpireTime := 60, backoff := true,
      onLimitReached := none }
    [("k", ⟨"k", 4, 10, 100⟩)] "k" 12 ⟨"k", 4, 10, 100⟩ rfl rfl rfl (by decide)
